import Mathlib

set_option maxHeartbeats 1000000
set_option autoImplicit false

/-!
Verification of the drinks_bar server (src/EX6/drinks_bar.c).

The in-memory inventory is the C struct `AtomStock` (three uint64_t counters).
The two protocol parsers `parse_and_update_tcp` and `parse_and_update_udp`,
the persistence helpers `load_atoms_from_file` / `save_atoms_to_file`, and the
console GEN handler from `main` are embedded shallowly below.  Machine
arithmetic on `unsigned long long` / `uint64_t` is modelled on `Nat` with an
explicit `% U64` at every operation that the C program performs modulo 2^64;
subtractions in the code only happen after an explicit `>=` guard, so plain
`Nat` subtraction coincides with the C result there.
-/

/-- MAX_ATOMS in drinks_bar.c: the maximum quantity 10^18. -/
def MAX_ATOMS : Nat := 1000000000000000000

/-- Modulus of the 64-bit unsigned arithmetic (uint64_t / unsigned long long): 2^64. -/
def U64 : Nat := 18446744073709551616

/-- The AtomStock struct of drinks_bar.c: counts of carbon, oxygen and hydrogen atoms. -/
structure AtomStock where
  carbon : Nat
  oxygen : Nat
  hydrogen : Nat
deriving DecidableEq, Repr

/-- The documented inventory invariant: every counter lies in [0, MAX_ATOMS]. -/
def inBounds (st : AtomStock) : Prop :=
  st.carbon ≤ MAX_ATOMS ∧ st.oxygen ≤ MAX_ATOMS ∧ st.hydrogen ≤ MAX_ATOMS

instance instDecInBounds (st : AtomStock) : Decidable (inBounds st) :=
  inferInstanceAs (Decidable (st.carbon ≤ MAX_ATOMS ∧ st.oxygen ≤ MAX_ATOMS ∧ st.hydrogen ≤ MAX_ATOMS))

/-- Characters accepted as whitespace by C `isspace` (what strtoull skips). -/
def isSpaceC (c : Char) : Bool :=
  c = ' ' || c = '\t' || c = '\n' || c = '\x0b' || c = '\x0c' || c = '\r'

/-- Decimal digit test, as in `strtoull` base 10. -/
def isDigitC (c : Char) : Bool :=
  '0' ≤ c && c ≤ '9'

/-- Numeric value of an accumulated run of decimal digit characters. -/
def digitsToNat (ds : List Char) : Nat :=
  ds.foldl (fun acc c => acc * 10 + (c.toNat - 48)) 0

/-- Core of the strtoull model: after whitespace and an optional sign have been
consumed, parse a maximal run of digits.  Returns (value, chars consumed from
the start of the original string); consumed = 0 when no digits were found,
matching C's "no conversion performed, endptr = nptr".  On overflow the value
is clamped to ULLONG_MAX; a minus sign negates the value modulo 2^64. -/
def strtoullCore (neg : Bool) (signLen wsLen : Nat) (rest : List Char) : Nat × Nat :=
  let ds := rest.takeWhile isDigitC
  if ds.isEmpty then (0, 0)
  else
    let v := digitsToNat ds
    let value :=
      if v ≥ U64 then U64 - 1
      else if neg then (U64 - v) % U64
      else v
    (value, wsLen + signLen + ds.length)

/-- Model of `strtoull(s, &endptr, 10)`: skip isspace characters, consume an
optional single + or - sign, then digits.  Returns the converted value and the
number of characters consumed (i.e. endptr - s). -/
def strtoull10 (s : List Char) : Nat × Nat :=
  let wsLen := (s.takeWhile isSpaceC).length
  let s1 := s.dropWhile isSpaceC
  match s1 with
  | [] => (0, 0)
  | c :: rest =>
    if c = '+' then strtoullCore false 1 wsLen rest
    else if c = '-' then strtoullCore true 1 wsLen rest
    else strtoullCore false 0 wsLen s1

/-- strtoull applied to one token (a String). -/
def strtoullOf (tok : String) : Nat × Nat :=
  strtoull10 tok.data

/-- Delimiters of `strtok_r(.., " \t\r\n", ..)` used by both protocol parsers. -/
def isDelim (c : Char) : Bool :=
  c = ' ' || c = '\t' || c = '\r' || c = '\n'

/-- Delimiters of the console `strtok(.., " \t")` in main. -/
def isConsoleDelim (c : Char) : Bool :=
  c = ' ' || c = '\t'

/-- Accumulating splitter: the sequence of maximal runs of non-delimiter
characters, i.e. the successive results of strtok with the given delimiter
class. -/
def tokenizeAux (delim : Char → Bool) : List Char → List Char → List String
  | [], acc => if acc.isEmpty then [] else [String.mk acc.reverse]
  | c :: cs, acc =>
    if delim c then
      if acc.isEmpty then tokenizeAux delim cs []
      else String.mk acc.reverse :: tokenizeAux delim cs []
    else tokenizeAux delim cs (c :: acc)

/-- Token sequence strtok_r produces from a request line with delimiters " \t\r\n". -/
def tokenize (s : String) : List String :=
  tokenizeAux isDelim s.data []

/-- Token sequence the console handler's strtok produces with delimiters " \t". -/
def tokenizeCon (s : String) : List String :=
  tokenizeAux isConsoleDelim s.data []

/-- The atom kinds of the ADD protocol (CARBON / OXYGEN / HYDROGEN enum). -/
inductive AtomType
  | CARBON
  | OXYGEN
  | HYDROGEN
deriving DecidableEq, Repr

/-- Wire spelling of each atom kind. -/
def kindStr : AtomType → String
  | .CARBON => "CARBON"
  | .OXYGEN => "OXYGEN"
  | .HYDROGEN => "HYDROGEN"

/-- Value of the counter named by an atom kind. -/
def getCounter (st : AtomStock) : AtomType → Nat
  | .CARBON => st.carbon
  | .OXYGEN => st.oxygen
  | .HYDROGEN => st.hydrogen

/-- The stock with the counter named by the kind replaced. -/
def setCounter (st : AtomStock) : AtomType → Nat → AtomStock
  | .CARBON, v => { st with carbon := v }
  | .OXYGEN, v => { st with oxygen := v }
  | .HYDROGEN, v => { st with hydrogen := v }

/-- Success response of parse_and_update_tcp. -/
def okTcp (st : AtomStock) : String :=
  "OK: Carbon=" ++ toString st.carbon ++ " Oxygen=" ++ toString st.oxygen ++
    " Hydrogen=" ++ toString st.hydrogen ++ "\n"

/-- Number validation and checked addition of parse_and_update_tcp
(drinks_bar.c lines 183-239), after the command and atom-type tokens have been
recognised.  The first component is `some` of the new stock exactly on the
success path (where the C code also saves the file), `none` on every early
error return, in which case the global stock is untouched. -/
def addPath (st : AtomStock) (ty : AtomType) (num : String) : Option AtomStock × String :=
  let r := strtoullOf num
  if r.2 = 0 ∨ r.2 ≠ num.data.length then (none, "ERROR: invalid number\n")
  else if r.1 > MAX_ATOMS then (none, "ERROR: number too large\n")
  else
    match ty with
    | .CARBON =>
      if (st.carbon + r.1) % U64 > MAX_ATOMS then (none, "ERROR: capacity exceeded\n")
      else
        let st2 := { st with carbon := (st.carbon + r.1) % U64 }
        (some st2, okTcp st2)
    | .OXYGEN =>
      if (st.oxygen + r.1) % U64 > MAX_ATOMS then (none, "ERROR: capacity exceeded\n")
      else
        let st2 := { st with oxygen := (st.oxygen + r.1) % U64 }
        (some st2, okTcp st2)
    | .HYDROGEN =>
      if (st.hydrogen + r.1) % U64 > MAX_ATOMS then (none, "ERROR: capacity exceeded\n")
      else
        let st2 := { st with hydrogen := (st.hydrogen + r.1) % U64 }
        (some st2, okTcp st2)

/-- Token-level body of parse_and_update_tcp (drinks_bar.c lines 156-239):
the C code reads at most three tokens with strtok_r and never looks further. -/
def parse_and_update_tcp_toks (st : AtomStock) (toks : List String) : Option AtomStock × String :=
  match toks with
  | cmd :: ty :: num :: _ =>
    if cmd ≠ "ADD" then (none, "ERROR: invalid command\n")
    else if ty = "CARBON" then addPath st .CARBON num
    else if ty = "OXYGEN" then addPath st .OXYGEN num
    else if ty = "HYDROGEN" then addPath st .HYDROGEN num
    else (none, "ERROR: invalid atom type\n")
  | _ => (none, "ERROR: invalid command\n")

/-- parse_and_update_tcp on a request line, without a configured save file
(save_file_path == NULL): tokenize the line, then run the token-level body. -/
def parse_and_update_tcp_line (st : AtomStock) (line : String) : Option AtomStock × String :=
  parse_and_update_tcp_toks st (tokenize line)

/-- The four molecule names the DELIVER protocol recognises. -/
inductive Molecule
  | WATER
  | CO2
  | GLUCOSE
  | ALCOHOL
deriving DecidableEq, Repr

/-- Wire token(s) naming each molecule ("CARBON DIOXIDE" is two tokens). -/
def molToks : Molecule → List String
  | .WATER => ["WATER"]
  | .CO2 => ["CARBON", "DIOXIDE"]
  | .GLUCOSE => ["GLUCOSE"]
  | .ALCOHOL => ["ALCOHOL"]

/-- Per-unit recipe of each molecule (carbon, oxygen, hydrogen), as in the
comments and constants of drinks_bar.c lines 317-346. -/
def recipe : Molecule → AtomStock
  | .WATER => ⟨0, 1, 2⟩
  | .CO2 => ⟨1, 2, 0⟩
  | .GLUCOSE => ⟨6, 6, 12⟩
  | .ALCOHOL => ⟨2, 1, 6⟩

/-- Required atoms for `count` molecules, computed exactly as the C code does:
each product `coeff * count` is a uint64_t multiplication, i.e. modulo 2^64. -/
def required (m : Molecule) (count : Nat) : AtomStock :=
  ⟨(recipe m).carbon * count % U64,
   (recipe m).oxygen * count % U64,
   (recipe m).hydrogen * count % U64⟩

/-- The check-then-subtract block of parse_and_update_udp (drinks_bar.c lines
348-365): insufficiency is reported for carbon, then oxygen, then hydrogen,
returning the stock unchanged; when all three suffice, all three counters are
decreased (the guards make the uint64_t subtraction exact). -/
def try_consume (st req : AtomStock) : AtomStock × Option String :=
  if st.carbon < req.carbon then (st, some "ERROR: not enough carbon atoms\n")
  else if st.oxygen < req.oxygen then (st, some "ERROR: not enough oxygen atoms\n")
  else if st.hydrogen < req.hydrogen then (st, some "ERROR: not enough hydrogen atoms\n")
  else (⟨st.carbon - req.carbon, st.oxygen - req.oxygen, st.hydrogen - req.hydrogen⟩, none)

/-- Success response of parse_and_update_udp (note the en dash of the C format
string). -/
def okUdp (st : AtomStock) : String :=
  "OK: Atoms left – Carbon=" ++ toString st.carbon ++ " Oxygen=" ++ toString st.oxygen ++
    " Hydrogen=" ++ toString st.hydrogen ++ "\n"

/-- Quantity validation and consumption of parse_and_update_udp (drinks_bar.c
lines 293-381) after the molecule has been recognised; `rest` is the token
stream after the molecule token(s). -/
def deliverNum (st : AtomStock) (m : Molecule) (rest : List String) : Option AtomStock × String :=
  match rest with
  | [] => (none, "ERROR: missing number\n")
  | num :: extra =>
    if extra ≠ [] then (none, "ERROR: too many arguments\n")
    else
      let r := strtoullOf num
      if r.2 = 0 ∨ r.2 ≠ num.data.length then (none, "ERROR: invalid number\n")
      else if r.1 > MAX_ATOMS then (none, "ERROR: number too large\n")
      else
        match try_consume st (required m r.1) with
        | (st2, none) => (some st2, okUdp st2)
        | (_, some e) => (none, e)

/-- Token-level body of parse_and_update_udp (drinks_bar.c lines 252-381). -/
def parse_and_update_udp_toks (st : AtomStock) (toks : List String) : Option AtomStock × String :=
  match toks with
  | cmd :: mol :: rest =>
    if cmd ≠ "DELIVER" then (none, "ERROR: invalid command\n")
    else if mol = "CARBON" then
      match rest with
      | [] => (none, "ERROR: invalid molecule type\n")
      | next :: rest2 =>
        if next ≠ "DIOXIDE" then (none, "ERROR: invalid molecule type\n")
        else deliverNum st .CO2 rest2
    else if mol = "WATER" then deliverNum st .WATER rest
    else if mol = "GLUCOSE" then deliverNum st .GLUCOSE rest
    else if mol = "ALCOHOL" then deliverNum st .ALCOHOL rest
    else (none, "ERROR: invalid molecule type\n")
  | _ => (none, "ERROR: invalid command\n")

/-- parse_and_update_udp on a request line without a configured save file. -/
def parse_and_update_udp_line (st : AtomStock) (line : String) : Option AtomStock × String :=
  parse_and_update_udp_toks st (tokenize line)

/-- State of the optional backing file: absent, present but smaller than one
AtomStock record, or holding a snapshot (its leading sizeof(AtomStock) bytes
decoded as the three counters). -/
inductive FileState
  | absent
  | tooSmall
  | snapshot (st : AtomStock)
deriving DecidableEq, Repr

/-- load_atoms_from_file (drinks_bar.c lines 412-455): when the file exists and
holds at least one AtomStock record the global stock is read from it; otherwise
the stock is set to the given fallback quantities and that record is written
out as a fresh file.  Returns (new stock, new file state). -/
def load_atoms_from_file (fs : FileState) (init_c init_o init_h : Nat) : AtomStock × FileState :=
  match fs with
  | .snapshot st => (st, fs)
  | _ => (⟨init_c, init_o, init_h⟩, .snapshot ⟨init_c, init_o, init_h⟩)

/-- save_atoms_to_file (drinks_bar.c lines 464-501): overwrite the file with
the current stock under an exclusive flock. -/
def save_atoms_to_file (st : AtomStock) : FileState :=
  .snapshot st

/-- The reload both parsers and the console branch perform first when a save
file is configured: `load_atoms_from_file(save_file_path, 0, 0, 0)`.  `cfg`
states whether the -f flag (save_file_path) was given. -/
def reloaded (cfg : Bool) (st : AtomStock) (fs : FileState) : AtomStock × FileState :=
  if cfg then load_atoms_from_file fs 0 0 0 else (st, fs)

/-- Full parse_and_update_tcp (drinks_bar.c lines 149-239) including the
persistence reload at entry and the save on the success path. -/
def parse_and_update_tcp (cfg : Bool) (st : AtomStock) (fs : FileState) (line : String) :
    AtomStock × FileState × String :=
  let l := reloaded cfg st fs
  match parse_and_update_tcp_toks l.1 (tokenize line) with
  | (some st2, resp) => (st2, if cfg then save_atoms_to_file st2 else l.2, resp)
  | (none, resp) => (l.1, l.2, resp)

/-- Full parse_and_update_udp (drinks_bar.c lines 246-381) including the
persistence reload at entry and the save on the success path. -/
def parse_and_update_udp (cfg : Bool) (st : AtomStock) (fs : FileState) (line : String) :
    AtomStock × FileState × String :=
  let l := reloaded cfg st fs
  match parse_and_update_udp_toks l.1 (tokenize line) with
  | (some st2, resp) => (st2, if cfg then save_atoms_to_file st2 else l.2, resp)
  | (none, resp) => (l.1, l.2, resp)

/-- The beverage count of the console handler: counter / divisor per element,
then the minimum, written as the C if-chain (drinks_bar.c lines 999-1030). -/
def canMake (st : AtomStock) (dc dh dO : Nat) : Nat :=
  let c := st.carbon / dc
  let h := st.hydrogen / dh
  let o := st.oxygen / dO
  let m1 := if h < c then h else c
  if o < m1 then o else m1

/-- The console GEN grammar of main (drinks_bar.c lines 985-1035), producing
the printed line for one console input line (trailing newline already
stripped by the fgets handling). -/
def consoleLine (st : AtomStock) (line : String) : String :=
  match tokenizeCon line with
  | [] => "ERROR: invalid console command\n"
  | cmd :: rest =>
    if cmd ≠ "GEN" then "ERROR: invalid console command\n"
    else
      match rest with
      | [] => "ERROR: missing drink type after GEN\n"
      | drink :: rest2 =>
        if drink = "SOFT" then
          match rest2 with
          | [] => "ERROR: did you mean \x27GEN SOFT DRINK\x27?\n"
          | next :: _ =>
            if next ≠ "DRINK" then "ERROR: did you mean \x27GEN SOFT DRINK\x27?\n"
            else "You can make up to " ++ toString (canMake st 6 14 9) ++ " SOFT DRINK(s)\n"
        else if drink = "VODKA" then
          "You can make up to " ++ toString (canMake st 8 20 8) ++ " VODKA(s)\n"
        else if drink = "CHAMPAGNE" then
          "You can make up to " ++ toString (canMake st 3 9 4) ++ " CHAMPAGNE(s)\n"
        else "ERROR: unknown drink type \x27" ++ drink ++ "\x27\n"

/-- One console dispatch of the event loop (drinks_bar.c lines 974-1045): when
a save file is configured the snapshot is reloaded (with zero fallback) before
the line is read; the GEN handling itself never writes the stock or the file. -/
def consoleStep (cfg : Bool) (st : AtomStock) (fs : FileState) (line : String) :
    AtomStock × FileState × String :=
  let l := reloaded cfg st fs
  (l.1, l.2, consoleLine l.1 line)

/-- The file-state part of the inventory invariant: a stored snapshot is in
bounds. -/
def fsInBounds : FileState → Prop
  | FileState.snapshot s => inBounds s
  | _ => True

instance instDecFsInBounds : (fs : FileState) → Decidable (fsInBounds fs)
  | FileState.snapshot s => instDecInBounds s
  | FileState.absent => inferInstanceAs (Decidable True)
  | FileState.tooSmall => inferInstanceAs (Decidable True)

/-! ### Helper lemmas -/

/-- The data of an appended string is the appended data. -/
theorem string_data_append (a b : String) : (a ++ b).data = a.data ++ b.data := by
  cases a
  cases b
  rfl

/-- The literal values of the two arithmetic constants, in a form omega can use. -/
theorem U64_eq : U64 = 18446744073709551616 := rfl

theorem MAX_ATOMS_eq : MAX_ATOMS = 1000000000000000000 := rfl

/-- A successful addPath keeps the inventory in bounds: the capacity check
rejects any result above MAX_ATOMS before the counter is written. -/
theorem addPath_inBounds (st : AtomStock) (ty : AtomType) (num : String) (st2 : AtomStock)
    (hst : inBounds st) (h : (addPath st ty num).1 = some st2) : inBounds st2 := by
  obtain ⟨h1, h2, h3⟩ := hst
  cases ty <;>
    simp only [addPath] at h <;>
    split_ifs at h with hA hB hC <;>
    injection h with h <;>
    subst h <;>
    exact ⟨by dsimp only; omega, by dsimp only; omega, by dsimp only; omega⟩

/-- A successful token-level ADD parse keeps the inventory in bounds. -/
theorem tcp_toks_inBounds (st : AtomStock) (toks : List String) (st2 : AtomStock)
    (hst : inBounds st) (h : (parse_and_update_tcp_toks st toks).1 = some st2) : inBounds st2 := by
  match toks with
  | [] => simp [parse_and_update_tcp_toks] at h
  | [_] => simp [parse_and_update_tcp_toks] at h
  | [_, _] => simp [parse_and_update_tcp_toks] at h
  | a :: b :: c :: rest =>
    simp only [parse_and_update_tcp_toks] at h
    split_ifs at h <;> exact addPath_inBounds _ _ _ _ hst h

/-- The stock try_consume returns is componentwise at most the input stock
(errors keep it, success subtracts), hence stays in bounds. -/
theorem try_consume_inBounds (st req : AtomStock) (hst : inBounds st) :
    inBounds (try_consume st req).1 := by
  obtain ⟨h1, h2, h3⟩ := hst
  unfold try_consume
  split_ifs <;> exact ⟨by dsimp only; omega, by dsimp only; omega, by dsimp only; omega⟩

/-- A successful deliverNum keeps the inventory in bounds. -/
theorem deliverNum_inBounds (st : AtomStock) (m : Molecule) (rest : List String) (st2 : AtomStock)
    (hst : inBounds st) (h : (deliverNum st m rest).1 = some st2) : inBounds st2 := by
  match rest with
  | [] => simp [deliverNum] at h
  | num :: extra =>
    simp only [deliverNum] at h
    split_ifs at h
    rcases htc : try_consume st (required m (strtoullOf num).1) with ⟨stc, e⟩
    rw [htc] at h
    cases e with
    | none =>
      simp only at h
      injection h with h
      subst h
      have := try_consume_inBounds st (required m (strtoullOf num).1) hst
      rw [htc] at this
      exact this
    | some err => simp at h

/-- A successful token-level DELIVER parse keeps the inventory in bounds. -/
theorem udp_toks_inBounds (st : AtomStock) (toks : List String) (st2 : AtomStock)
    (hst : inBounds st) (h : (parse_and_update_udp_toks st toks).1 = some st2) : inBounds st2 := by
  match toks with
  | [] => simp [parse_and_update_udp_toks] at h
  | [_] => simp [parse_and_update_udp_toks] at h
  | cmd :: mol :: rest =>
    simp only [parse_and_update_udp_toks] at h
    split_ifs at h
    all_goals
      first
        | exact deliverNum_inBounds _ _ _ _ hst h
        | (match rest with
           | [] => simp at h
           | next :: rest2 =>
             simp only at h
             split_ifs at h <;>
               first
                 | exact deliverNum_inBounds _ _ _ _ hst h
                 | simp at h)

/-- The reload that runs at the top of every command dispatch keeps both the
in-memory stock and the backing file in bounds. -/
theorem reloaded_inBounds (cfg : Bool) (st : AtomStock) (fs : FileState)
    (hst : inBounds st) (hfs : fsInBounds fs) :
    inBounds (reloaded cfg st fs).1 ∧ fsInBounds (reloaded cfg st fs).2 := by
  unfold reloaded
  split_ifs
  · cases fs with
    | snapshot s => exact ⟨hfs, hfs⟩
    | absent => exact ⟨by decide, by decide⟩
    | tooSmall => exact ⟨by decide, by decide⟩
  · exact ⟨hst, hfs⟩

/-! ### Claim theorems -/

/-- C1: a DELIVER consume with required carbon/oxygen/hydrogen amounts fails
with the error of the first insufficient element in carbon→oxygen→hydrogen
check order and leaves all three counters unchanged; when all three suffice it
decreases all three counters by exactly the required amounts (all-or-nothing,
no partial update). -/
theorem C1_try_consume_all_or_nothing (st req : AtomStock) :
    (st.carbon < req.carbon →
      try_consume st req = (st, some "ERROR: not enough carbon atoms\n")) ∧
    (req.carbon ≤ st.carbon → st.oxygen < req.oxygen →
      try_consume st req = (st, some "ERROR: not enough oxygen atoms\n")) ∧
    (req.carbon ≤ st.carbon → req.oxygen ≤ st.oxygen → st.hydrogen < req.hydrogen →
      try_consume st req = (st, some "ERROR: not enough hydrogen atoms\n")) ∧
    (req.carbon ≤ st.carbon → req.oxygen ≤ st.oxygen → req.hydrogen ≤ st.hydrogen →
      try_consume st req =
        (⟨st.carbon - req.carbon, st.oxygen - req.oxygen, st.hydrogen - req.hydrogen⟩, none)) := by
  unfold try_consume
  refine ⟨?_, ?_, ?_, ?_⟩ <;> intros <;> split_ifs <;> first | rfl | omega

/-- Witness for C1 at concrete inputs: a consume short on carbon reports the
carbon error with the stock intact; a fully covered consume subtracts all
three counters. -/
theorem C1_try_consume_all_or_nothing_witness :
    try_consume ⟨1, 2, 3⟩ ⟨2, 0, 0⟩ = (⟨1, 2, 3⟩, some "ERROR: not enough carbon atoms\n") ∧
    try_consume ⟨5, 5, 5⟩ ⟨1, 2, 3⟩ = (⟨4, 3, 2⟩, none) :=
  ⟨(C1_try_consume_all_or_nothing ⟨1, 2, 3⟩ ⟨2, 0, 0⟩).1 (by decide),
   (C1_try_consume_all_or_nothing ⟨5, 5, 5⟩ ⟨1, 2, 3⟩).2.2.2 (by decide) (by decide) (by decide)⟩

/-- C2: starting from an in-bounds inventory and an in-bounds backing file,
every mutation path of the server — a TCP/UDS-stream ADD dispatch, a
UDP/UDS-datagram DELIVER dispatch, and the console dispatch with its
persistence reload — leaves each of the three counters in [0, 10^18] and
every snapshot it writes in bounds. -/
theorem C2_invariant_preservation (cfg : Bool) (st : AtomStock) (fs : FileState) (line : String)
    (hst : inBounds st) (hfs : fsInBounds fs) :
    (inBounds (parse_and_update_tcp cfg st fs line).1 ∧
      fsInBounds (parse_and_update_tcp cfg st fs line).2.1) ∧
    (inBounds (parse_and_update_udp cfg st fs line).1 ∧
      fsInBounds (parse_and_update_udp cfg st fs line).2.1) ∧
    (inBounds (consoleStep cfg st fs line).1 ∧
      fsInBounds (consoleStep cfg st fs line).2.1) := by
  obtain ⟨hl1, hl2⟩ := reloaded_inBounds cfg st fs hst hfs
  refine ⟨?_, ?_, ⟨hl1, hl2⟩⟩
  · unfold parse_and_update_tcp
    rcases hp : parse_and_update_tcp_toks (reloaded cfg st fs).1 (tokenize line) with ⟨o, resp⟩
    cases o with
    | some st2 =>
      have h2 : inBounds st2 :=
        tcp_toks_inBounds _ _ _ hl1 (by rw [hp])
      simp only [hp]
      constructor
      · exact h2
      · split_ifs
        · exact h2
        · exact hl2
    | none =>
      simp only [hp]
      exact ⟨hl1, hl2⟩
  · unfold parse_and_update_udp
    rcases hp : parse_and_update_udp_toks (reloaded cfg st fs).1 (tokenize line) with ⟨o, resp⟩
    cases o with
    | some st2 =>
      have h2 : inBounds st2 :=
        udp_toks_inBounds _ _ _ hl1 (by rw [hp])
      simp only [hp]
      constructor
      · exact h2
      · split_ifs
        · exact h2
        · exact hl2
    | none =>
      simp only [hp]
      exact ⟨hl1, hl2⟩

/-- Witness for C2: a configured save file, in-bounds stock (5,5,5), an absent
file and the line "ADD CARBON 1". -/
theorem C2_invariant_preservation_witness :
    (inBounds (parse_and_update_tcp true ⟨5, 5, 5⟩ .absent "ADD CARBON 1").1 ∧
      fsInBounds (parse_and_update_tcp true ⟨5, 5, 5⟩ .absent "ADD CARBON 1").2.1) ∧
    (inBounds (parse_and_update_udp true ⟨5, 5, 5⟩ .absent "ADD CARBON 1").1 ∧
      fsInBounds (parse_and_update_udp true ⟨5, 5, 5⟩ .absent "ADD CARBON 1").2.1) ∧
    (inBounds (consoleStep true ⟨5, 5, 5⟩ .absent "ADD CARBON 1").1 ∧
      fsInBounds (consoleStep true ⟨5, 5, 5⟩ .absent "ADD CARBON 1").2.1) :=
  C2_invariant_preservation true ⟨5, 5, 5⟩ .absent "ADD CARBON 1" (by decide) (by decide)

/-- On a well-formed three-token ADD command the token parse is exactly the
number-validation-and-add path. -/
theorem tcp_toks_add (st : AtomStock) (k : AtomType) (num : String) :
    parse_and_update_tcp_toks st ["ADD", kindStr k, num] = addPath st k num := by
  cases k <;> simp [parse_and_update_tcp_toks, kindStr]

/-- C3: a well-formed ADD of quantity q to kind K succeeds and increases
counter K by exactly q iff q ≤ 10^18 and current + q ≤ 10^18; q > 10^18 gives
"number too large", current + q > 10^18 gives "capacity exceeded", with the
counter unchanged on failure (the error results carry no new stock).  From a
zero baseline, ADD CARBON 10^18 succeeds and hits the ceiling exactly, and a
following ADD CARBON 1 fails with capacity exceeded. -/
theorem C3_add_semantics (st : AtomStock) (k : AtomType) (num : String) (q : Nat)
    (hst : inBounds st)
    (hnum : strtoullOf num = (q, num.data.length)) (hlen : num.data.length ≠ 0) :
    (q > MAX_ATOMS →
       parse_and_update_tcp_toks st ["ADD", kindStr k, num] =
         (none, "ERROR: number too large\n")) ∧
    (q ≤ MAX_ATOMS → getCounter st k + q > MAX_ATOMS →
       parse_and_update_tcp_toks st ["ADD", kindStr k, num] =
         (none, "ERROR: capacity exceeded\n")) ∧
    (q ≤ MAX_ATOMS → getCounter st k + q ≤ MAX_ATOMS →
       parse_and_update_tcp_toks st ["ADD", kindStr k, num] =
         (some (setCounter st k (getCounter st k + q)),
          okTcp (setCounter st k (getCounter st k + q)))) ∧
    parse_and_update_tcp_line ⟨0, 0, 0⟩ "ADD CARBON 1000000000000000000" =
      (some ⟨MAX_ATOMS, 0, 0⟩, okTcp ⟨MAX_ATOMS, 0, 0⟩) ∧
    parse_and_update_tcp_line ⟨MAX_ATOMS, 0, 0⟩ "ADD CARBON 1" =
      (none, "ERROR: capacity exceeded\n") := by
  obtain ⟨h1, h2, h3⟩ := hst
  have hU := U64_eq
  have hM := MAX_ATOMS_eq
  rw [tcp_toks_add]
  simp only [addPath, hnum, Prod.fst, Prod.snd]
  rw [if_neg (by omega)]
  refine ⟨fun hq => by rw [if_pos hq], ?_, ?_, by decide, by decide⟩
  · intro hq hc2
    rw [if_neg (by omega)]
    cases k <;> dsimp only [getCounter] at hc2 <;> simp only <;>
      rw [Nat.mod_eq_of_lt (by omega), if_pos (by omega)]
  · intro hq hc2
    rw [if_neg (by omega)]
    cases k <;> dsimp only [getCounter] at hc2 <;> simp only <;>
      rw [Nat.mod_eq_of_lt (by omega), if_neg (by omega)] <;>
      dsimp only [setCounter, getCounter]

/-- Witness for C3: ADD OXYGEN 5 from the empty inventory succeeds and sets
the oxygen counter to 5. -/
theorem C3_add_semantics_witness :
    parse_and_update_tcp_toks ⟨0, 0, 0⟩ ["ADD", kindStr .OXYGEN, "5"] =
      (some (setCounter ⟨0, 0, 0⟩ .OXYGEN (getCounter ⟨0, 0, 0⟩ .OXYGEN + 5)),
       okTcp (setCounter ⟨0, 0, 0⟩ .OXYGEN (getCounter ⟨0, 0, 0⟩ .OXYGEN + 5))) :=
  (C3_add_semantics ⟨0, 0, 0⟩ .OXYGEN "5" 5 (by decide) (by decide) (by decide)).2.2.1
    (by decide) (by decide)

/-- On a DELIVER command whose molecule tokens are recognised, the token parse
is exactly the quantity-validation-and-consume path. -/
theorem udp_toks_deliver (st : AtomStock) (m : Molecule) (rest : List String) :
    parse_and_update_udp_toks st ("DELIVER" :: (molToks m ++ rest)) = deliverNum st m rest := by
  cases m <;> simp [parse_and_update_udp_toks, molToks]

/-- For quantities up to MAX_ATOMS none of the recipe multiplications wraps:
the uint64_t products equal the exact products. -/
theorem required_exact (m : Molecule) (q : Nat) (hq : q ≤ MAX_ATOMS) :
    required m q = ⟨(recipe m).carbon * q, (recipe m).oxygen * q, (recipe m).hydrogen * q⟩ := by
  have hU := U64_eq
  have hM := MAX_ATOMS_eq
  cases m <;>
    simp only [required, recipe, AtomStock.mk.injEq] <;>
    refine ⟨?_, ?_, ?_⟩ <;>
    exact Nat.mod_eq_of_lt (by omega)

/-- C4: a successful DELIVER of q units of molecule m decreases the three
counters by exactly q times the recipe of m (WATER 0/1/2, CARBON DIOXIDE
1/2/0, GLUCOSE 6/6/12, ALCOHOL 2/1/6 in carbon/oxygen/hydrogen order) and
replies with the OK line reporting the post-mutation counters; a request of
quantity zero always succeeds with no change to any counter. -/
theorem C4_deliver_recipes (st : AtomStock) (m : Molecule) (num : String) (q : Nat)
    (hnum : strtoullOf num = (q, num.data.length)) (hlen : num.data.length ≠ 0)
    (hq : q ≤ MAX_ATOMS) :
    ((recipe m).carbon * q ≤ st.carbon → (recipe m).oxygen * q ≤ st.oxygen →
       (recipe m).hydrogen * q ≤ st.hydrogen →
       parse_and_update_udp_toks st ("DELIVER" :: (molToks m ++ [num])) =
         (some ⟨st.carbon - (recipe m).carbon * q, st.oxygen - (recipe m).oxygen * q,
                st.hydrogen - (recipe m).hydrogen * q⟩,
          okUdp ⟨st.carbon - (recipe m).carbon * q, st.oxygen - (recipe m).oxygen * q,
                 st.hydrogen - (recipe m).hydrogen * q⟩)) ∧
    parse_and_update_udp_toks st ("DELIVER" :: (molToks m ++ ["0"])) = (some st, okUdp st) := by
  obtain ⟨c, o, h⟩ := st
  constructor
  · intro hc ho hh
    dsimp only at hc ho hh
    rw [udp_toks_deliver]
    simp only [deliverNum, hnum, Prod.fst, Prod.snd]
    rw [required_exact m q hq]
    simp only [try_consume]
    split_ifs with hA hB hC hD hE hF <;>
      first
        | rfl
        | exact absurd rfl hA
        | (exfalso; omega)
  · rw [udp_toks_deliver]
    have h0 : strtoullOf "0" = (0, 1) := by decide
    have hlen0 : ("0" : String).data.length = 1 := by decide
    have hr0 : required m 0 = ⟨0, 0, 0⟩ := by cases m <;> decide
    have hM := MAX_ATOMS_eq
    simp only [deliverNum, h0, Prod.fst, Prod.snd, hlen0, hr0]
    simp only [try_consume]
    split_ifs with hA hB hC hD hE hF <;>
      first
        | (exfalso; omega)
        | exact absurd rfl hA
        | simp at hB ⊢

/-- Witness for C4: the spec scenario DELIVER WATER 1 from (0,5,5) yields
(0,4,3), and DELIVER WATER 0 changes nothing. -/
theorem C4_deliver_recipes_witness :
    parse_and_update_udp_toks ⟨0, 5, 5⟩ ("DELIVER" :: (molToks .WATER ++ ["1"])) =
      (some ⟨0, 4, 3⟩, okUdp ⟨0, 4, 3⟩) ∧
    parse_and_update_udp_toks ⟨0, 5, 5⟩ ("DELIVER" :: (molToks .WATER ++ ["0"])) =
      (some ⟨0, 5, 5⟩, okUdp ⟨0, 5, 5⟩) :=
  ⟨(C4_deliver_recipes ⟨0, 5, 5⟩ .WATER "1" 1 (by decide) (by decide) (by decide)).1
      (by decide) (by decide) (by decide),
   (C4_deliver_recipes ⟨0, 5, 5⟩ .WATER "0" 0 (by decide) (by decide) (by decide)).2⟩

/-- When the converted quantity exceeds MAX_ATOMS, a well-formed DELIVER is
answered with "ERROR: number too large". -/
theorem deliverNum_too_large (st : AtomStock) (m : Molecule) (num : String) (q : Nat)
    (hnum : strtoullOf num = (q, num.data.length)) (hlen : num.data.length ≠ 0)
    (hq : q > MAX_ATOMS) :
    parse_and_update_udp_toks st ("DELIVER" :: (molToks m ++ [num])) =
      (none, "ERROR: number too large
") := by
  rw [udp_toks_deliver]
  simp only [deliverNum, hnum, Prod.fst, Prod.snd]
  split_ifs with hA hB hC <;> first | rfl | exact absurd rfl hA | (exfalso; omega)

/-- C5 counterexample: the claim says a quantity token that is not a clean
unsigned integer is answered with "ERROR: invalid number", but the token "+1"
(which carries a sign character) is accepted by strtoull: DELIVER WATER +1
from stock (0,5,5) succeeds and consumes the atoms instead. -/
theorem C5_counterexample :
    parse_and_update_udp_line ⟨0, 5, 5⟩ "DELIVER WATER +1" =
      (some ⟨0, 4, 3⟩, okUdp ⟨0, 4, 3⟩) ∧
    ((parse_and_update_udp_line ⟨0, 5, 5⟩ "DELIVER WATER +1").2 ==
        "ERROR: invalid number\n") = false :=
  ⟨by decide, by decide⟩

/-- C5 amended: the DELIVER validation order as implemented — missing command
or first molecule token, or command not DELIVER → invalid command; CARBON not
followed by exactly DIOXIDE, or unrecognized single-word molecule → invalid
molecule type; missing quantity → missing number; extra token after the
quantity → too many arguments; a quantity token from which strtoull consumes
no digits or which has trailing characters after the consumed part → invalid
number (so sign-prefixed digit tokens are accepted, not rejected); converted
value above 10^18 → number too large. -/
theorem C5_amended (st : AtomStock) :
    (parse_and_update_udp_toks st [] = (none, "ERROR: invalid command\n")) ∧
    (∀ cmd : String, parse_and_update_udp_toks st [cmd] = (none, "ERROR: invalid command\n")) ∧
    (∀ cmd mol : String, ∀ rest : List String, cmd ≠ "DELIVER" →
       parse_and_update_udp_toks st (cmd :: mol :: rest) = (none, "ERROR: invalid command\n")) ∧
    (parse_and_update_udp_toks st ["DELIVER", "CARBON"] =
       (none, "ERROR: invalid molecule type\n")) ∧
    (∀ next : String, ∀ rest : List String, next ≠ "DIOXIDE" →
       parse_and_update_udp_toks st ("DELIVER" :: "CARBON" :: next :: rest) =
         (none, "ERROR: invalid molecule type\n")) ∧
    (∀ mol : String, ∀ rest : List String,
       mol ≠ "CARBON" → mol ≠ "WATER" → mol ≠ "GLUCOSE" → mol ≠ "ALCOHOL" →
       parse_and_update_udp_toks st ("DELIVER" :: mol :: rest) =
         (none, "ERROR: invalid molecule type\n")) ∧
    (∀ m : Molecule, parse_and_update_udp_toks st ("DELIVER" :: molToks m) =
       (none, "ERROR: missing number\n")) ∧
    (∀ m : Molecule, ∀ num e1 : String, ∀ es : List String,
       parse_and_update_udp_toks st ("DELIVER" :: (molToks m ++ num :: e1 :: es)) =
         (none, "ERROR: too many arguments\n")) ∧
    (∀ m : Molecule, ∀ num : String,
       (strtoullOf num).2 = 0 ∨ (strtoullOf num).2 ≠ num.data.length →
       parse_and_update_udp_toks st ("DELIVER" :: (molToks m ++ [num])) =
         (none, "ERROR: invalid number\n")) ∧
    (∀ m : Molecule, ∀ num : String, ∀ q : Nat,
       strtoullOf num = (q, num.data.length) → num.data.length ≠ 0 → q > MAX_ATOMS →
       parse_and_update_udp_toks st ("DELIVER" :: (molToks m ++ [num])) =
         (none, "ERROR: number too large\n")) := by
  refine ⟨by simp [parse_and_update_udp_toks], fun cmd => rfl, ?_, ?_, ?_, ?_, ?_, ?_, ?_, ?_⟩
  · intro cmd mol rest h
    simp [parse_and_update_udp_toks, h]
  · simp [parse_and_update_udp_toks]
  · intro next rest h
    simp [parse_and_update_udp_toks, h]
  · intro mol rest h1 h2 h3 h4
    simp [parse_and_update_udp_toks, h1, h2, h3, h4]
  · intro m
    have h := udp_toks_deliver st m []
    rw [List.append_nil] at h
    rw [h]
    cases m <;> rfl
  · intro m num e1 es
    rw [udp_toks_deliver]
    simp [deliverNum]
  · intro m num h
    rw [udp_toks_deliver]
    simp only [deliverNum]
    split_ifs with hA hB <;> first | rfl | exact absurd rfl hA | (exfalso; omega)
  · intro m num q hnum hlen hq
    exact deliverNum_too_large st m num q hnum hlen hq

/-- Witness for C5 amended: each conditional clause applied at a concrete
input (wrong command word, wrong DIOXIDE continuation, unknown molecule,
garbage number token, oversized number). -/
theorem C5_amended_witness :
    parse_and_update_udp_toks ⟨1, 1, 1⟩ ["DELIVR", "WATER"] =
      (none, "ERROR: invalid command\n") ∧
    parse_and_update_udp_toks ⟨1, 1, 1⟩ ["DELIVER", "CARBON", "DIOXID"] =
      (none, "ERROR: invalid molecule type\n") ∧
    parse_and_update_udp_toks ⟨1, 1, 1⟩ ["DELIVER", "HELIUM", "1"] =
      (none, "ERROR: invalid molecule type\n") ∧
    parse_and_update_udp_toks ⟨1, 1, 1⟩ ("DELIVER" :: (molToks .WATER ++ ["12a"])) =
      (none, "ERROR: invalid number\n") ∧
    parse_and_update_udp_toks ⟨1, 1, 1⟩ ("DELIVER" :: (molToks .WATER ++ ["2000000000000000000"])) =
      (none, "ERROR: number too large\n") :=
  ⟨(C5_amended ⟨1, 1, 1⟩).2.2.1 "DELIVR" "WATER" [] (by decide),
   (C5_amended ⟨1, 1, 1⟩).2.2.2.2.1 "DIOXID" [] (by decide),
   (C5_amended ⟨1, 1, 1⟩).2.2.2.2.2.1 "HELIUM" ["1"] (by decide) (by decide) (by decide) (by decide),
   (C5_amended ⟨1, 1, 1⟩).2.2.2.2.2.2.2.2.1 .WATER "12a" (by decide),
   (C5_amended ⟨1, 1, 1⟩).2.2.2.2.2.2.2.2.2 .WATER "2000000000000000000" 2000000000000000000
     (by decide) (by decide) (by decide)⟩

/-- C6: for every valid quantity q ≤ 10^18 the per-element required totals
recipe_element * q are exact (the uint64_t products do not wrap), and whenever
a recipe product would not fit in 64 bits the request is necessarily rejected
with "ERROR: number too large" before any multiplication result is used. -/
theorem C6_no_wrap (m : Molecule) (q : Nat) :
    (q ≤ MAX_ATOMS →
       required m q = ⟨(recipe m).carbon * q, (recipe m).oxygen * q, (recipe m).hydrogen * q⟩) ∧
    (∀ st : AtomStock, ∀ num : String,
       strtoullOf num = (q, num.data.length) → num.data.length ≠ 0 →
       (U64 ≤ (recipe m).carbon * q ∨ U64 ≤ (recipe m).oxygen * q ∨
         U64 ≤ (recipe m).hydrogen * q) →
       parse_and_update_udp_toks st ("DELIVER" :: (molToks m ++ [num])) =
         (none, "ERROR: number too large\n")) := by
  constructor
  · exact required_exact m q
  · intro st num hnum hlen hover
    have hq : q > MAX_ATOMS := by
      have hU := U64_eq
      have hM := MAX_ATOMS_eq
      cases m <;> simp only [recipe] at hover <;> omega
    exact deliverNum_too_large st m num q hnum hlen hq

/-- Witness for C6: GLUCOSE with q = 5 computes the exact products, and
GLUCOSE with q = 10^19 (whose hydrogen product 12q overflows 2^64) is
rejected as number too large. -/
theorem C6_no_wrap_witness :
    required .GLUCOSE 5 =
      ⟨(recipe .GLUCOSE).carbon * 5, (recipe .GLUCOSE).oxygen * 5,
       (recipe .GLUCOSE).hydrogen * 5⟩ ∧
    parse_and_update_udp_toks ⟨1, 1, 1⟩
        ("DELIVER" :: (molToks .GLUCOSE ++ ["10000000000000000000"])) =
      (none, "ERROR: number too large\n") :=
  ⟨(C6_no_wrap .GLUCOSE 5).1 (by decide),
   (C6_no_wrap .GLUCOSE 10000000000000000000).2 ⟨1, 1, 1⟩ "10000000000000000000"
     (by decide) (by decide) (by decide)⟩

/-- C7 counterexample: with a configured backing file that is absent at the
pre-command reload, the claim predicts the inventory is reinitialized from the
command-line initial quantities (here (5,5,5), so ADD CARBON 1 would give
(6,5,5)); the code passes 0,0,0 to the reload instead, so the result is
(1,0,0). -/
theorem C7_counterexample :
    parse_and_update_tcp true ⟨5, 5, 5⟩ .absent "ADD CARBON 1" =
      (⟨1, 0, 0⟩, .snapshot ⟨1, 0, 0⟩, okTcp ⟨1, 0, 0⟩) ∧
    ((parse_and_update_tcp true ⟨5, 5, 5⟩ .absent "ADD CARBON 1").1 == ⟨6, 5, 5⟩) = false :=
  ⟨by decide, by decide⟩

/-- C7 amended: load_atoms_from_file treats an absent or too-small file as no
prior state, sets the inventory to the fallback quantities it is given and
writes that back as the initial snapshot — at startup main passes the
command-line initial quantities, but the reload performed before each
mutation-producing command passes 0,0,0, so a file that disappears mid-run
reinitializes the inventory to zero rather than to the command-line values. -/
theorem C7_amended (c o h : Nat) (st : AtomStock) :
    load_atoms_from_file .absent c o h = (⟨c, o, h⟩, .snapshot ⟨c, o, h⟩) ∧
    load_atoms_from_file .tooSmall c o h = (⟨c, o, h⟩, .snapshot ⟨c, o, h⟩) ∧
    (∀ s : AtomStock, load_atoms_from_file (.snapshot s) c o h = (s, .snapshot s)) ∧
    reloaded true st .absent = (⟨0, 0, 0⟩, .snapshot ⟨0, 0, 0⟩) ∧
    reloaded true st .tooSmall = (⟨0, 0, 0⟩, .snapshot ⟨0, 0, 0⟩) ∧
    (∀ s : AtomStock, reloaded true st (.snapshot s) = (s, .snapshot s)) :=
  ⟨rfl, rfl, fun _ => rfl, rfl, rfl, fun _ => rfl⟩

/-- C8 counterexample: handling the console line "GEN VODKA" with a configured
backing file that is absent overwrites the in-memory counters (5,5,5) with
zeros and writes a fresh snapshot file, contradicting the claim that console
handling never changes the counters and never writes the persistence file. -/
theorem C8_counterexample :
    consoleStep true ⟨5, 5, 5⟩ .absent "GEN VODKA" =
      (⟨0, 0, 0⟩, .snapshot ⟨0, 0, 0⟩, "You can make up to 0 VODKA(s)\n") ∧
    ((consoleStep true ⟨5, 5, 5⟩ .absent "GEN VODKA").1 == ⟨5, 5, 5⟩) = false ∧
    ((consoleStep true ⟨5, 5, 5⟩ .absent "GEN VODKA").2.1 == FileState.absent) = false :=
  ⟨by decide, by decide, by decide⟩

/-- C8 amended: with no backing file configured, handling any console line
leaves the counters and file untouched; with a backing file configured, the
dispatch first reloads the snapshot (which can overwrite the in-memory
counters and, for an absent or too-small file, zeroes them and writes an
initial snapshot), and beyond that reload the GEN handling mutates nothing
and writes nothing. -/
theorem C8_amended (st : AtomStock) (fs : FileState) (line : String) :
    consoleStep false st fs line = (st, fs, consoleLine st line) ∧
    consoleStep true st fs line =
      ((reloaded true st fs).1, (reloaded true st fs).2,
        consoleLine (reloaded true st fs).1 line) :=
  ⟨rfl, rfl⟩

/-- C9 counterexample: the claim says a third token containing a sign
character is answered with "ERROR: invalid number", but strtoull accepts
"+5" and ADD CARBON +5 from the empty inventory succeeds with counter 5. -/
theorem C9_counterexample :
    parse_and_update_tcp_line ⟨0, 0, 0⟩ "ADD CARBON +5" =
      (some ⟨5, 0, 0⟩, okTcp ⟨5, 0, 0⟩) ∧
    ((parse_and_update_tcp_line ⟨0, 0, 0⟩ "ADD CARBON +5").2 ==
        "ERROR: invalid number\n") = false :=
  ⟨by decide, by decide⟩

/-- C9 amended: an ADD whose third token gives strtoull no digits to consume,
or leaves trailing characters after the consumed part, is answered with
"ERROR: invalid number" and no new stock is produced; however a token of an
optional plus sign followed by digits is consumed entirely by strtoull
(so it is never rejected as an invalid number). -/
theorem C9_amended (st : AtomStock) (k : AtomType) (num : String) :
    ((strtoullOf num).2 = 0 ∨ (strtoullOf num).2 ≠ num.data.length →
       parse_and_update_tcp_toks st ["ADD", kindStr k, num] =
         (none, "ERROR: invalid number\n")) ∧
    (∀ ds : List Char, ds ≠ [] → ds.all isDigitC = true →
       (strtoull10 ('+' :: ds)).2 = ds.length + 1) := by
  constructor
  · intro h
    rw [tcp_toks_add]
    simp only [addPath]
    rw [if_pos h]
  · intro ds hne hall
    have hsp : isSpaceC '+' = false := by decide
    have htw : ds.takeWhile isDigitC = ds :=
      List.takeWhile_eq_self_iff.mpr (by simpa using hall)
    simp only [strtoull10, List.takeWhile_cons, List.dropWhile_cons, hsp]
    simp only [Bool.false_eq_true, if_false, List.length_nil]
    simp only [if_true]
    simp only [strtoullCore, htw]
    rw [if_neg (by simp [List.isEmpty_iff, hne])]
    omega

/-- Witness for C9 amended: the token "12a" (trailing garbage) is rejected as
an invalid number, and "+5" is consumed entirely by strtoull. -/
theorem C9_amended_witness :
    parse_and_update_tcp_toks ⟨0, 0, 0⟩ ["ADD", kindStr .CARBON, "12a"] =
      (none, "ERROR: invalid number\n") ∧
    (strtoull10 ('+' :: ['5'])).2 = ['5'].length + 1 :=
  ⟨(C9_amended ⟨0, 0, 0⟩ .CARBON "12a").1 (by decide),
   (C9_amended ⟨0, 0, 0⟩ .CARBON "12a").2 ['5'] (by decide) (by decide)⟩

/-- The ADD success response is never the too-many-arguments error line. -/
theorem okTcp_ne_tooMany (st : AtomStock) : (okTcp st == "ERROR: too many arguments\n") = false := by
  rw [beq_eq_false_iff_ne]
  intro h
  have h2 := congrArg String.data h
  rw [okTcp] at h2
  simp only [string_data_append, List.cons_append, List.nil_append] at h2
  injection h2 with hc _
  exact absurd hc (by decide)

/-- C10: the ADD parser examines only the first three whitespace-delimited
tokens — any tokens after the quantity are ignored and the command behaves
exactly as without them — and no ADD request is ever answered with the
"ERROR: too many arguments" rejection that the DELIVER path has. -/
theorem C10_add_ignores_extra_tokens (st : AtomStock) (t1 t2 t3 : String) (rest : List String) :
    parse_and_update_tcp_toks st (t1 :: t2 :: t3 :: rest) =
      parse_and_update_tcp_toks st [t1, t2, t3] ∧
    ∀ toks : List String,
      ((parse_and_update_tcp_toks st toks).2 == "ERROR: too many arguments\n") = false := by
  refine ⟨rfl, ?_⟩
  intro toks
  match toks with
  | [] => rfl
  | [_] => rfl
  | [_, _] => rfl
  | a :: b :: c :: r =>
    simp only [parse_and_update_tcp_toks]
    split_ifs <;>
      first
        | rfl
        | (simp only [addPath]
           split_ifs <;> first | rfl | exact okTcp_ne_tooMany _)
